import Mathlib

/-!
Verification of the home-automation firmware `Projeto_webserver.c`.

The development shallowly embeds the request-driven device-state core of the
firmware: the six boolean device flags, the command router `user_request`
(which matches inbound HTTP request bytes with `strstr`, a raw substring
search, in a fixed else-if priority order), the LED-matrix projection
`ligar_luz`, the OLED display renderer `ligar_display` with its transition
tracker `tv`, the ultrasonic distance measurement `measure_distance_cm`
(modelled with an explicit fuel bound so that its non-termination on a dead
echo line is provable), and the temperature conversion `temp_read` (floats
modelled as exact rationals).
-/

namespace Projeto

/-- The six boolean device flags of the firmware (`estado_led_*`,
`estado_display`), all initialised to `false` at process start. -/
structure DeviceState where
  estado_led_sala : Bool
  estado_led_cozinha : Bool
  estado_led_quarto : Bool
  estado_led_banheiro : Bool
  estado_led_quintal : Bool
  estado_display : Bool
  deriving DecidableEq, Repr

/-- The state touched by `user_request`: the six device flags plus the
onboard CYW43 indicator LED written by `cyw43_arch_gpio_put(LED_PIN, _)`. -/
structure SystemState where
  devices : DeviceState
  led_pin : Bool
  deriving DecidableEq, Repr

/-- All flags off, indicator off: the state at process start. -/
def initSystem : SystemState :=
  { devices :=
      { estado_led_sala := false
        estado_led_cozinha := false
        estado_led_quarto := false
        estado_led_banheiro := false
        estado_led_quintal := false
        estado_display := false }
    led_pin := false }

/-- `strstr_found haystack needle = true` iff C's `strstr(haystack, needle)`
returns non-NULL, i.e. `needle` occurs as a contiguous substring of
`haystack` (the empty needle is always found). -/
def strstr_found : List Char → List Char → Bool
  | [], needle => needle.isPrefixOf []
  | h :: t, needle => needle.isPrefixOf (h :: t) || strstr_found t needle

/-- The eight literal command strings the router searches for, in the
else-if order of `user_request`. -/
def cmd_sala : List Char := "GET /mudar_estado_luz_sala".data

def cmd_cozinha : List Char := "GET /mudar_estado_luz_cozinha".data

def cmd_quarto : List Char := "GET /mudar_estado_luz_quarto".data

def cmd_banheiro : List Char := "GET /mudar_estado_luz_banheiro".data

def cmd_quintal : List Char := "GET /mudar_estado_luz_quintal".data

def cmd_display : List Char := "GET /mudar_estado_display".data

def cmd_on : List Char := "GET /on".data

def cmd_off : List Char := "GET /off".data

/-- The closed, ordered list of all eight recognized command strings. -/
def commands : List (List Char) :=
  [cmd_sala, cmd_cozinha, cmd_quarto, cmd_banheiro, cmd_quintal,
   cmd_display, cmd_on, cmd_off]

/-- Embedding of `user_request`: an else-if chain of `strstr` searches, the
first match fires.  The two indicator commands write the onboard LED pin;
the six toggle commands flip one device flag; no match changes nothing. -/
def user_request (request : List Char) (s : SystemState) : SystemState :=
  if strstr_found request cmd_sala then
    { s with devices :=
        { s.devices with estado_led_sala := !s.devices.estado_led_sala } }
  else if strstr_found request cmd_cozinha then
    { s with devices :=
        { s.devices with estado_led_cozinha := !s.devices.estado_led_cozinha } }
  else if strstr_found request cmd_quarto then
    { s with devices :=
        { s.devices with estado_led_quarto := !s.devices.estado_led_quarto } }
  else if strstr_found request cmd_banheiro then
    { s with devices :=
        { s.devices with estado_led_banheiro := !s.devices.estado_led_banheiro } }
  else if strstr_found request cmd_quintal then
    { s with devices :=
        { s.devices with estado_led_quintal := !s.devices.estado_led_quintal } }
  else if strstr_found request cmd_display then
    { s with devices :=
        { s.devices with estado_display := !s.devices.estado_display } }
  else if strstr_found request cmd_on then
    { s with led_pin := true }
  else if strstr_found request cmd_off then
    { s with led_pin := false }
  else
    s

/-- Names for the six toggleable flags. -/
inductive Flag
  | sala
  | cozinha
  | quarto
  | banheiro
  | quintal
  | display
  deriving DecidableEq, Repr, Fintype

/-- Project one flag out of the device state. -/
def getFlag (f : Flag) (d : DeviceState) : Bool :=
  match f with
  | .sala => d.estado_led_sala
  | .cozinha => d.estado_led_cozinha
  | .quarto => d.estado_led_quarto
  | .banheiro => d.estado_led_banheiro
  | .quintal => d.estado_led_quintal
  | .display => d.estado_display

/-- The command string that toggles a given flag. -/
def togglePath (f : Flag) : List Char :=
  match f with
  | .sala => cmd_sala
  | .cozinha => cmd_cozinha
  | .quarto => cmd_quarto
  | .banheiro => cmd_banheiro
  | .quintal => cmd_quintal
  | .display => cmd_display

end Projeto

namespace Projeto

/-- Routing the sala command fires the first branch. -/
lemma ur_sala (s : SystemState) :
    user_request cmd_sala s =
      { s with devices :=
          { s.devices with estado_led_sala := !s.devices.estado_led_sala } } := by
  have h1 : strstr_found cmd_sala cmd_sala = true := by decide
  simp [user_request, h1]

/-- Routing the cozinha command fires exactly the cozinha branch. -/
lemma ur_cozinha (s : SystemState) :
    user_request cmd_cozinha s =
      { s with devices :=
          { s.devices with estado_led_cozinha := !s.devices.estado_led_cozinha } } := by
  have h1 : strstr_found cmd_cozinha cmd_sala = false := by decide
  have h2 : strstr_found cmd_cozinha cmd_cozinha = true := by decide
  simp [user_request, h1, h2]

/-- Routing the quarto command fires exactly the quarto branch. -/
lemma ur_quarto (s : SystemState) :
    user_request cmd_quarto s =
      { s with devices :=
          { s.devices with estado_led_quarto := !s.devices.estado_led_quarto } } := by
  have h1 : strstr_found cmd_quarto cmd_sala = false := by decide
  have h2 : strstr_found cmd_quarto cmd_cozinha = false := by decide
  have h3 : strstr_found cmd_quarto cmd_quarto = true := by decide
  simp [user_request, h1, h2, h3]

/-- Routing the banheiro command fires exactly the banheiro branch. -/
lemma ur_banheiro (s : SystemState) :
    user_request cmd_banheiro s =
      { s with devices :=
          { s.devices with estado_led_banheiro := !s.devices.estado_led_banheiro } } := by
  have h1 : strstr_found cmd_banheiro cmd_sala = false := by decide
  have h2 : strstr_found cmd_banheiro cmd_cozinha = false := by decide
  have h3 : strstr_found cmd_banheiro cmd_quarto = false := by decide
  have h4 : strstr_found cmd_banheiro cmd_banheiro = true := by decide
  simp [user_request, h1, h2, h3, h4]

/-- Routing the quintal command fires exactly the quintal branch. -/
lemma ur_quintal (s : SystemState) :
    user_request cmd_quintal s =
      { s with devices :=
          { s.devices with estado_led_quintal := !s.devices.estado_led_quintal } } := by
  have h1 : strstr_found cmd_quintal cmd_sala = false := by decide
  have h2 : strstr_found cmd_quintal cmd_cozinha = false := by decide
  have h3 : strstr_found cmd_quintal cmd_quarto = false := by decide
  have h4 : strstr_found cmd_quintal cmd_banheiro = false := by decide
  have h5 : strstr_found cmd_quintal cmd_quintal = true := by decide
  simp [user_request, h1, h2, h3, h4, h5]

/-- Routing the display command fires exactly the display branch. -/
lemma ur_display (s : SystemState) :
    user_request cmd_display s =
      { s with devices :=
          { s.devices with estado_display := !s.devices.estado_display } } := by
  have h1 : strstr_found cmd_display cmd_sala = false := by decide
  have h2 : strstr_found cmd_display cmd_cozinha = false := by decide
  have h3 : strstr_found cmd_display cmd_quarto = false := by decide
  have h4 : strstr_found cmd_display cmd_banheiro = false := by decide
  have h5 : strstr_found cmd_display cmd_quintal = false := by decide
  have h6 : strstr_found cmd_display cmd_display = true := by decide
  simp [user_request, h1, h2, h3, h4, h5, h6]

/-- Routing a toggle path rewrites to a single-flag update of the state. -/
lemma ur_togglePath (f : Flag) (s : SystemState) :
    user_request (togglePath f) s =
      match f with
      | .sala =>
        { s with devices :=
            { s.devices with estado_led_sala := !s.devices.estado_led_sala } }
      | .cozinha =>
        { s with devices :=
            { s.devices with estado_led_cozinha := !s.devices.estado_led_cozinha } }
      | .quarto =>
        { s with devices :=
            { s.devices with estado_led_quarto := !s.devices.estado_led_quarto } }
      | .banheiro =>
        { s with devices :=
            { s.devices with estado_led_banheiro := !s.devices.estado_led_banheiro } }
      | .quintal =>
        { s with devices :=
            { s.devices with estado_led_quintal := !s.devices.estado_led_quintal } }
      | .display =>
        { s with devices :=
            { s.devices with estado_display := !s.devices.estado_display } } := by
  cases f
  · exact ur_sala s
  · exact ur_cozinha s
  · exact ur_quarto s
  · exact ur_banheiro s
  · exact ur_quintal s
  · exact ur_display s

/-- Claim C2: for each of the six flags, routing its toggle request twice in
succession returns that flag to its original value (toggling is an
involution), for every starting state. -/
theorem c2_toggle_involution (f : Flag) (s : SystemState) :
    getFlag f (user_request (togglePath f) (user_request (togglePath f) s)).devices =
      getFlag f s.devices := by
  rw [ur_togglePath, ur_togglePath]
  cases f <;> simp [getFlag]

/-- Claim C3: routing any one of the six recognized toggle paths mutates only
its designated target flag; every other flag keeps its prior value. -/
theorem c3_toggle_frame (f g : Flag) (hne : g ≠ f) (s : SystemState) :
    getFlag g (user_request (togglePath f) s).devices = getFlag g s.devices := by
  rw [ur_togglePath]
  cases f <;> cases g <;> simp [getFlag] <;> exact absurd rfl hne

/-- Witness for C3 at a concrete pair of flags and a concrete state. -/
theorem c3_toggle_frame_witness :
    Flag.cozinha ≠ Flag.sala ∧
      getFlag Flag.cozinha
          (user_request (togglePath Flag.sala) initSystem).devices =
        getFlag Flag.cozinha initSystem.devices :=
  ⟨by decide, c3_toggle_frame Flag.sala Flag.cozinha (by decide) initSystem⟩

end Projeto

namespace Projeto

/-- A list is a Boolean prefix of itself followed by anything. -/
lemma isPrefixOf_append_self (l t : List Char) : l.isPrefixOf (l ++ t) = true := by
  induction l with
  | nil => simp
  | cons c cs ih => simp [List.isPrefixOf_cons₂, ih]

/-- `strstr` finds an empty needle in any haystack. -/
lemma strstr_found_nil (h : List Char) : strstr_found h [] = true := by
  induction h with
  | nil => rfl
  | cons c cs ih => simp [strstr_found, List.isPrefixOf]

/-- `strstr` finds the needle wherever it occurs, whatever surrounds it. -/
lemma strstr_found_append (pre needle post : List Char) :
    strstr_found (pre ++ needle ++ post) needle = true := by
  induction pre with
  | nil =>
    cases needle with
    | nil => exact strstr_found_nil post
    | cons c cs =>
      show ((c :: cs).isPrefixOf ((c :: cs) ++ post) ||
        strstr_found (cs ++ post) (c :: cs)) = true
      rw [isPrefixOf_append_self (c :: cs) post, Bool.true_or]
  | cons c cs ih =>
    show (needle.isPrefixOf (c :: (cs ++ needle ++ post)) ||
      strstr_found (cs ++ needle ++ post) needle) = true
    rw [ih, Bool.or_true]

/-- Counterexample to claim C1: a request whose path is `/index.html`, with
the sala command string merely embedded in later, attacker-controllable
content, nevertheless toggles the sala flag.  Under an exact-or-prefix path
match this request would be a no-op. -/
theorem c1_counterexample :
    (user_request
        ("GET /index.html HTTP/1.1\r\nX-Note: GET /mudar_estado_luz_sala end").data
        initSystem).devices.estado_led_sala = true := by
  decide

end Projeto

namespace Projeto

/-- The router's possible effects: toggle one flag, drive the onboard
indicator LED, or do nothing. -/
inductive Action
  | ToggleFlag : Flag → Action
  | SetIndicator : Bool → Action
  | NoOp : Action
  deriving DecidableEq, Repr

/-- Apply a routed action to the system state. -/
def applyAction (a : Action) (s : SystemState) : SystemState :=
  match a with
  | .ToggleFlag .sala =>
    { s with devices :=
        { s.devices with estado_led_sala := !s.devices.estado_led_sala } }
  | .ToggleFlag .cozinha =>
    { s with devices :=
        { s.devices with estado_led_cozinha := !s.devices.estado_led_cozinha } }
  | .ToggleFlag .quarto =>
    { s with devices :=
        { s.devices with estado_led_quarto := !s.devices.estado_led_quarto } }
  | .ToggleFlag .banheiro =>
    { s with devices :=
        { s.devices with estado_led_banheiro := !s.devices.estado_led_banheiro } }
  | .ToggleFlag .quintal =>
    { s with devices :=
        { s.devices with estado_led_quintal := !s.devices.estado_led_quintal } }
  | .ToggleFlag .display =>
    { s with devices :=
        { s.devices with estado_display := !s.devices.estado_display } }
  | .SetIndicator b => { s with led_pin := b }
  | .NoOp => s

/-- The command table: the eight recognized command strings, in the else-if
order of `user_request`, each paired with its action. -/
def commandTable : List (List Char × Action) :=
  [(cmd_sala, .ToggleFlag .sala),
   (cmd_cozinha, .ToggleFlag .cozinha),
   (cmd_quarto, .ToggleFlag .quarto),
   (cmd_banheiro, .ToggleFlag .banheiro),
   (cmd_quintal, .ToggleFlag .quintal),
   (cmd_display, .ToggleFlag .display),
   (cmd_on, .SetIndicator true),
   (cmd_off, .SetIndicator false)]

/-- First entry of the table whose command string occurs in the request. -/
def firstMatch (r : List Char) : List (List Char × Action) → Action
  | [] => Action.NoOp
  | (c, a) :: rest => if strstr_found r c then a else firstMatch r rest

/-- The router's decision for a request: the first matching command wins. -/
def route (r : List Char) : Action :=
  firstMatch r commandTable

/-- Number of state bits (six device flags plus the indicator LED) on which
two system states disagree. -/
def diffCount (s t : SystemState) : Nat :=
  (if s.devices.estado_led_sala != t.devices.estado_led_sala then 1 else 0) +
  (if s.devices.estado_led_cozinha != t.devices.estado_led_cozinha then 1 else 0) +
  (if s.devices.estado_led_quarto != t.devices.estado_led_quarto then 1 else 0) +
  (if s.devices.estado_led_banheiro != t.devices.estado_led_banheiro then 1 else 0) +
  (if s.devices.estado_led_quintal != t.devices.estado_led_quintal then 1 else 0) +
  (if s.devices.estado_display != t.devices.estado_display then 1 else 0) +
  (if s.led_pin != t.led_pin then 1 else 0)

/-- The else-if chain of `user_request` computes exactly the action of the
first matching entry of the ordered command table. -/
lemma user_request_eq_route (r : List Char) (s : SystemState) :
    user_request r s = applyAction (route r) s := by
  unfold user_request route
  simp only [commandTable, firstMatch]
  split_ifs <;> rfl

/-- `firstMatch` skips every earlier entry whose command misses the request
and stops at an entry whose command hits. -/
lemma firstMatch_of_earlier_miss (r : List Char)
    (tbl1 : List (List Char × Action)) (c : List Char) (a : Action)
    (tbl2 : List (List Char × Action))
    (hmiss : ∀ p ∈ tbl1, strstr_found r p.1 = false)
    (hc : strstr_found r c = true) :
    firstMatch r (tbl1 ++ (c, a) :: tbl2) = a := by
  induction tbl1 with
  | nil => simp [firstMatch, hc]
  | cons q rest ih =>
    obtain ⟨qc, qa⟩ := q
    have hq : strstr_found r qc = false :=
      hmiss (qc, qa) (List.mem_cons_self (qc, qa) rest)
    simp only [List.cons_append, firstMatch, hq, Bool.false_eq_true, if_false]
    exact ih (fun p hp => hmiss p (List.mem_cons_of_mem _ hp))

/-- Claim C10: `user_request` is exactly "apply the first matching command of
the fixed else-if chain", so a single call performs at most one action: even
a request containing several recognized command strings changes at most one
state bit. -/
theorem c10_single_action (r : List Char) (s : SystemState) :
    user_request r s = applyAction (route r) s ∧
      diffCount s (user_request r s) ≤ 1 := by
  have hdiff : ∀ a : Action, diffCount s (applyAction a s) ≤ 1 := by
    intro a
    cases a with
    | ToggleFlag f =>
      cases f <;>
        simp [applyAction, diffCount, Bool.bne_not_self]
    | SetIndicator b =>
      cases b <;> cases hp : s.led_pin <;>
        simp [applyAction, diffCount, hp]
    | NoOp => simp [applyAction, diffCount]
  exact ⟨user_request_eq_route r s,
    by rw [user_request_eq_route r s]; exact hdiff (route r)⟩

/-- Claim C1 (amended): the router's matching is a raw `strstr` substring
search, in the fixed else-if order, against the closed enumerated set of
eight recognized command strings.  For each of the eight commands (any
decomposition of the command table around one entry `(c, a)`), a request
that contains `c` anywhere — with arbitrary surrounding content — and misses
the commands checked earlier in the chain performs exactly that command's
action, even when `c` is not the request's path. -/
theorem c1_substring_match (tbl1 : List (List Char × Action)) (c : List Char)
    (a : Action) (tbl2 : List (List Char × Action))
    (htbl : commandTable = tbl1 ++ (c, a) :: tbl2)
    (pre post : List Char) (s : SystemState)
    (hmiss : ∀ p ∈ tbl1, strstr_found (pre ++ c ++ post) p.1 = false) :
    user_request (pre ++ c ++ post) s = applyAction a s := by
  rw [user_request_eq_route]
  unfold route
  rw [htbl,
    firstMatch_of_earlier_miss (pre ++ c ++ post) tbl1 c a tbl2 hmiss
      (strstr_found_append pre c post)]

/-- Witness for C1 at the display command — the sixth entry of the chain —
embedded between junk bytes: the display flag toggles. -/
theorem c1_substring_match_witness :
    (commandTable =
      [(cmd_sala, Action.ToggleFlag Flag.sala),
       (cmd_cozinha, Action.ToggleFlag Flag.cozinha),
       (cmd_quarto, Action.ToggleFlag Flag.quarto),
       (cmd_banheiro, Action.ToggleFlag Flag.banheiro),
       (cmd_quintal, Action.ToggleFlag Flag.quintal)] ++
        (cmd_display, Action.ToggleFlag Flag.display) ::
          [(cmd_on, Action.SetIndicator true),
           (cmd_off, Action.SetIndicator false)]) ∧
    (∀ p ∈ [(cmd_sala, Action.ToggleFlag Flag.sala),
            (cmd_cozinha, Action.ToggleFlag Flag.cozinha),
            (cmd_quarto, Action.ToggleFlag Flag.quarto),
            (cmd_banheiro, Action.ToggleFlag Flag.banheiro),
            (cmd_quintal, Action.ToggleFlag Flag.quintal)],
      strstr_found ("junk ".data ++ cmd_display ++ " junk".data) p.1 = false) ∧
    user_request ("junk ".data ++ cmd_display ++ " junk".data) initSystem =
      applyAction (Action.ToggleFlag Flag.display) initSystem :=
  ⟨by decide, by decide,
   c1_substring_match
     [(cmd_sala, Action.ToggleFlag Flag.sala),
      (cmd_cozinha, Action.ToggleFlag Flag.cozinha),
      (cmd_quarto, Action.ToggleFlag Flag.quarto),
      (cmd_banheiro, Action.ToggleFlag Flag.banheiro),
      (cmd_quintal, Action.ToggleFlag Flag.quintal)]
     cmd_display (Action.ToggleFlag Flag.display)
     [(cmd_on, Action.SetIndicator true),
      (cmd_off, Action.SetIndicator false)]
     (by decide) "junk ".data " junk".data initSystem (by decide)⟩

/-- The response status and header lines of the `snprintf` template in
`tcp_server_recv`: HTTP 200 with `Content-Type: text/html`. -/
def http_header : String :=
  "HTTP/1.1 200 OK\r\n" ++
  "Content-Type: text/html\r\n" ++
  "\r\n"

/-- The HTML document of the `snprintf` template.  `temp_fmt` stands for the
`%.2f` rendering of the measured temperature, the only dynamic part. -/
def html_body (temp_fmt : String) : String :=
  "<!DOCTYPE html>\n" ++
  "<html>\n" ++
  "<head>\n" ++
  "<title>Controle Residencial</title>\n" ++
  "<style>\n" ++
  "body \x7b background-color:rgb(188, 251, 181); font-family: Arial, sans-serif; text-align: center; margin-top: 50px; \x7d\n" ++
  "h1 \x7b font-size: 64px; margin-bottom: 30px; \x7d\n" ++
  "button \x7b background-color: LightBlue; font-size: 36px; margin: 10px; padding: 20px 40px; border-radius: 10px; \x7d\n" ++
  ".temperature \x7b font-size: 48px; margin-top: 30px; color: #333; \x7d\n" ++
  "</style>\n" ++
  "</head>\n" ++
  "<body>\n" ++
  "<h1>Controle Residencial</h1>\n" ++
  "<form action=\"./mudar_estado_luz_sala\"><button>Luz da Sala</button></form>\n" ++
  "<form action=\"./mudar_estado_luz_cozinha\"><button>Luz da Cozinha</button></form>\n" ++
  "<form action=\"./mudar_estado_luz_quarto\"><button>Luz do Quarto</button></form>\n" ++
  "<form action=\"./mudar_estado_luz_banheiro\"><button>Luz do Banheiro</button></form>\n" ++
  "<form action=\"./mudar_estado_luz_quintal\"><button>Luz do Quintal</button></form>\n" ++
  "<form action=\"./mudar_estado_display\"><button>Televisão</button></form>\n" ++
  "<p class=\"temperature\">Temperatura Interna: " ++ temp_fmt ++ " &deg;C</p>\n" ++
  "</body>\n" ++
  "</html>\n"

/-- The full HTTP response of `tcp_server_recv`. -/
def html_page (temp_fmt : String) : String :=
  http_header ++ html_body temp_fmt

/-- Embedding of `tcp_server_recv` on a non-empty payload: the request bytes
are copied out of the packet buffer, `user_request` runs on them, and the
status page is rendered and written back.  `temp_fmt` stands for the
formatted `temp_read` sample embedded in the page. -/
def tcp_server_recv (request : List Char) (s : SystemState)
    (temp_fmt : String) : SystemState × String :=
  (user_request request s, html_page temp_fmt)

/-- Claim C4: a request that matches none of the eight recognized commands
leaves all six flags (and the indicator) unchanged, and still receives the
standard HTTP 200 `text/html` status page. -/
theorem c4_unrecognized_noop (r : List Char) (s : SystemState) (t : String)
    (h : ∀ c ∈ commands, strstr_found r c = false) :
    (tcp_server_recv r s t).1 = s ∧
      (tcp_server_recv r s t).2 = http_header ++ html_body t := by
  refine ⟨?_, rfl⟩
  show user_request r s = s
  have h1 := h cmd_sala (by simp [commands])
  have h2 := h cmd_cozinha (by simp [commands])
  have h3 := h cmd_quarto (by simp [commands])
  have h4 := h cmd_banheiro (by simp [commands])
  have h5 := h cmd_quintal (by simp [commands])
  have h6 := h cmd_display (by simp [commands])
  have h7 := h cmd_on (by simp [commands])
  have h8 := h cmd_off (by simp [commands])
  simp [user_request, h1, h2, h3, h4, h5, h6, h7, h8]

/-- Witness for C4: `GET /favicon.ico` matches nothing, changes nothing, and
still gets the standard page. -/
theorem c4_unrecognized_noop_witness :
    (∀ c ∈ commands,
      strstr_found ("GET /favicon.ico HTTP/1.1").data c = false) ∧
    (tcp_server_recv ("GET /favicon.ico HTTP/1.1").data initSystem "27.00").1 =
      initSystem ∧
    (tcp_server_recv ("GET /favicon.ico HTTP/1.1").data initSystem "27.00").2 =
      http_header ++ html_body "27.00" :=
  ⟨by decide,
   c4_unrecognized_noop ("GET /favicon.ico HTTP/1.1").data initSystem "27.00"
     (by decide)⟩

/-- Embedding of `ligar_luz`: the flat row-major sequence of 25 32-bit color
words pushed to the PIO state machine, one per LED.  Row `i / 5` selects the
room; a set flag paints its row `0xFFFFFF00`, otherwise black. -/
def ligar_luz (d : DeviceState) : List Nat :=
  let luz_sala := if d.estado_led_sala then 0xFFFFFF00 else 0x00000000
  let luz_cozinha := if d.estado_led_cozinha then 0xFFFFFF00 else 0x00000000
  let luz_quarto := if d.estado_led_quarto then 0xFFFFFF00 else 0x00000000
  let luz_banheiro := if d.estado_led_banheiro then 0xFFFFFF00 else 0x00000000
  let luz_quintal := if d.estado_led_quintal then 0xFFFFFF00 else 0x00000000
  (List.range 25).map (fun i =>
    let linha := i / 5
    if linha == 4 then luz_sala
    else if linha == 3 then luz_cozinha
    else if linha == 2 then luz_quarto
    else if linha == 1 then luz_banheiro
    else if linha == 0 then luz_quintal
    else 0x000000)

/-- The five room flags shown on the LED matrix. -/
inductive Room
  | sala
  | cozinha
  | quarto
  | banheiro
  | quintal
  deriving DecidableEq, Repr, Fintype

/-- The matrix row assigned to each room by `ligar_luz`. -/
def roomRow (r : Room) : Nat :=
  match r with
  | .sala => 4
  | .cozinha => 3
  | .quarto => 2
  | .banheiro => 1
  | .quintal => 0

/-- Project one room flag out of the device state. -/
def roomFlag (r : Room) (d : DeviceState) : Bool :=
  match r with
  | .sala => d.estado_led_sala
  | .cozinha => d.estado_led_cozinha
  | .quarto => d.estado_led_quarto
  | .banheiro => d.estado_led_banheiro
  | .quintal => d.estado_led_quintal

/-- Claim C7: with exactly one room flag set, one render emits a flat
sequence of exactly 25 color words in which precisely the 5 cells of the row
assigned to the set flag are `0xFFFFFF00` and the other 20 cells are
black, for each of the five possible single-flag choices. -/
theorem c7_matrix_single_row :
    ∀ (b1 b2 b3 b4 b5 b6 : Bool) (r : Room),
      roomFlag r ⟨b1, b2, b3, b4, b5, b6⟩ = true →
      (∀ r2 : Room, r2 ≠ r → roomFlag r2 ⟨b1, b2, b3, b4, b5, b6⟩ = false) →
      (ligar_luz ⟨b1, b2, b3, b4, b5, b6⟩).length = 25 ∧
        ∀ i, i < 25 →
          (ligar_luz ⟨b1, b2, b3, b4, b5, b6⟩).getD i 0 =
            (if i / 5 = roomRow r then 0xFFFFFF00 else 0) := by
  decide

/-- Witness for C7: only the sala flag set lights exactly row 4. -/
theorem c7_matrix_single_row_witness :
    roomFlag Room.sala ⟨true, false, false, false, false, false⟩ = true ∧
    (∀ r2 : Room, r2 ≠ Room.sala →
      roomFlag r2 ⟨true, false, false, false, false, false⟩ = false) ∧
    ((ligar_luz ⟨true, false, false, false, false, false⟩).length = 25 ∧
      ∀ i, i < 25 →
        (ligar_luz ⟨true, false, false, false, false, false⟩).getD i 0 =
          (if i / 5 = roomRow Room.sala then 0xFFFFFF00 else 0)) :=
  ⟨by decide, by decide,
   c7_matrix_single_row true false false false false false Room.sala
     (by decide) (by decide)⟩

/-- What one call to `ligar_display` flushes to the OLED with
`ssd1306_send_data`. -/
inductive Frame
  | frameOn
  | frameOff
  | frameBlank
  deriving DecidableEq, Repr

/-- Embedding of `ligar_display` together with the global tracker `tv`
(an `int`): if the display flag is set, flush the "TELEVISAO LIGADA" frame
and set `tv := 1`; otherwise, only when `tv == 1`, flush the transient
"TELEVISAO DESLIGADA" frame, dwell, flush a blank frame and set `tv := 0`;
otherwise flush nothing and leave `tv` alone.  Returns the frames flushed by
this call and the new `tv`. -/
def ligar_display (estado_display : Bool) (tv : Int) : List Frame × Int :=
  if estado_display then
    ([Frame.frameOn], 1)
  else if tv = 1 then
    ([Frame.frameOff, Frame.frameBlank], 0)
  else
    ([], tv)

/-- Iterate the render loop over a sequence of display-flag values,
collecting the frames flushed at each iteration and threading `tv`. -/
def run_display : List Bool → Int → List (List Frame) × Int
  | [], tv => ([], tv)
  | b :: rest, tv =>
    let step := ligar_display b tv
    let next := run_display rest step.2
    (step.1 :: next.1, next.2)

/-- Claim C5: on the flag sequence `[false, true, false]` from a clear
tracker, the renderer flushes nothing, then exactly one ON frame, then
exactly one OFF transient followed by the blank frame; and from the
resulting clear tracker no further OFF transient (indeed no frame at all) is
flushed while the flag stays false. -/
theorem c5_display_sequence :
    run_display [false, true, false] 0 =
      ([[], [Frame.frameOn], [Frame.frameOff, Frame.frameBlank]], 0) ∧
    ∀ more : List Bool, (∀ b ∈ more, b = false) →
      (run_display more 0).1.flatten = [] := by
  constructor
  · decide
  · intro more
    induction more with
    | nil => intro _; rfl
    | cons b rest ih =>
      intro h
      have hb : b = false := h b (List.mem_cons_self b rest)
      subst hb
      have hr := ih (fun x hx => h x (List.mem_cons_of_mem _ hx))
      simp [run_display, ligar_display, hr]

/-- Witness for C5 at the concrete all-false continuation `[false, false]`. -/
theorem c5_display_sequence_witness :
    (∀ b ∈ [false, false], b = false) ∧
      (run_display [false, false] 0).1.flatten = [] :=
  ⟨by decide, c5_display_sequence.2 [false, false] (by decide)⟩

/-- Claim C6: after every call to the display renderer, the tracker `tv`
equals 1 exactly when the display flag was true during that render, so at
the start of the next render `tv` records whether the previous frame showed
the display as ON. -/
theorem c6_tracker_invariant (b : Bool) (tv0 : Int) :
    ((ligar_display b tv0).2 = 1) ↔ b = true := by
  cases b
  · by_cases htv : tv0 = 1 <;> simp [ligar_display, htv]
  · simp [ligar_display]

/-- Busy-wait of `measure_distance_cm` for the echo line to read HIGH:
starting at sample time `t`, return the first time the echo reads true.
The C loop has no bound, so the embedding carries an explicit `fuel`;
`none` means the loop is still spinning after `fuel` polls. -/
def wait_for_high (echo : Nat → Bool) : Nat → Nat → Option Nat
  | _, 0 => none
  | t, fuel + 1 => if echo t then some t else wait_for_high echo (t + 1) fuel

/-- Busy-wait for the echo line to return LOW, from time `t` on. -/
def wait_for_low (echo : Nat → Bool) : Nat → Nat → Option Nat
  | _, 0 => none
  | t, fuel + 1 => if echo t then wait_for_low echo (t + 1) fuel else some t

/-- Embedding of `measure_distance_cm` over a time-indexed echo trace
(one poll per microsecond tick): wait for the rising edge, timestamp, wait
for the falling edge, timestamp, and convert the elapsed microseconds to
centimeters dividing by 58.0 (floats as exact rationals).  The C function
has no timeout whatsoever, which the fuel parameter makes provable: a trace
with no rising edge yields `none` at every fuel. -/
def measure_distance_cm (echo : Nat → Bool) (fuel : Nat) : Option ℚ :=
  match wait_for_high echo 0 fuel with
  | none => none
  | some start =>
    match wait_for_low echo start fuel with
    | none => none
    | some stop => some (((stop : ℚ) - (start : ℚ)) / 58)

/-- On a trace that never rises, the HIGH wait spins forever. -/
lemma wait_for_high_dead (echo : Nat → Bool) (hdead : ∀ t, echo t = false) :
    ∀ fuel t, wait_for_high echo t fuel = none := by
  intro fuel
  induction fuel with
  | zero => intro t; rfl
  | succ n ih =>
    intro t
    simp [wait_for_high, hdead t, ih (t + 1)]

/-- The HIGH wait finds the first rising sample once fuel reaches it. -/
lemma wait_for_high_spec (echo : Nat → Bool) (r : Nat)
    (hr : echo r = true) (hbefore : ∀ t, t < r → echo t = false) :
    ∀ fuel t, t ≤ r → r < t + fuel → wait_for_high echo t fuel = some r := by
  intro fuel
  induction fuel with
  | zero => intro t hle hlt; omega
  | succ n ih =>
    intro t hle hlt
    rcases eq_or_lt_of_le hle with heq | hlt2
    · subst heq
      simp [wait_for_high, hr]
    · have ht : echo t = false := hbefore t hlt2
      simp only [wait_for_high, ht, Bool.false_eq_true, if_false]
      exact ih (t + 1) (by omega) (by omega)

/-- The LOW wait finds the first falling sample once fuel reaches it. -/
lemma wait_for_low_spec (echo : Nat → Bool) (r f : Nat)
    (hf : echo f = false) (hhigh : ∀ t, t < f → r ≤ t → echo t = true) :
    ∀ fuel t, r ≤ t → t ≤ f → f < t + fuel → wait_for_low echo t fuel = some f := by
  intro fuel
  induction fuel with
  | zero => intro t _ hle hlt; omega
  | succ n ih =>
    intro t hrt hle hlt
    rcases eq_or_lt_of_le hle with heq | hlt2
    · subst heq
      simp [wait_for_low, hf]
    · have ht : echo t = true := hhigh t hlt2 hrt
      simp only [wait_for_low, ht, if_true]
      exact ih (t + 1) (by omega) (by omega) (by omega)

/-- Anything the HIGH wait returns is a sample where the echo reads true. -/
lemma wait_for_high_sound (echo : Nat → Bool) :
    ∀ fuel t u, wait_for_high echo t fuel = some u → echo u = true := by
  intro fuel
  induction fuel with
  | zero =>
    intro t u h
    exact absurd h (by simp [wait_for_high])
  | succ n ih =>
    intro t u h
    simp only [wait_for_high] at h
    by_cases he : echo t = true
    · rw [if_pos he] at h
      cases h
      exact he
    · rw [if_neg he] at h
      exact ih (t + 1) u h

/-- On a trace that stays high from `r` on, the LOW wait spins forever. -/
lemma wait_for_low_never (echo : Nat → Bool) (r : Nat)
    (hhigh : ∀ t, r ≤ t → echo t = true) :
    ∀ fuel t, r ≤ t → wait_for_low echo t fuel = none := by
  intro fuel
  induction fuel with
  | zero => intro t _; rfl
  | succ n ih =>
    intro t hrt
    simp only [wait_for_low, hhigh t hrt, if_true]
    exact ih (t + 1) (by omega)

/-- Claim C8: `measure_distance_cm` terminates exactly on an echo trace with
a rising edge followed by a falling edge, and there is no timeout.  First
part: a trace that never rises blocks the first busy-wait unboundedly — no
finite number of polls returns.  Second part: a trace that rises at `r` but
never falls again blocks the second busy-wait unboundedly.  These two cases
are exactly the traces with no rise-then-fall transition (take `r` the first
rising sample).  Third part: a pulse rising at `r` and falling at `f` yields
the reading `(f - r) / 58.0` centimeters once enough polls have run. -/
theorem c8_measure_distance (echo : Nat → Bool) :
    ((∀ t, echo t = false) →
      ∀ fuel, measure_distance_cm echo fuel = none) ∧
    (∀ r, (∀ t, t < r → echo t = false) → (∀ t, r ≤ t → echo t = true) →
      ∀ fuel, measure_distance_cm echo fuel = none) ∧
    (∀ r f, r < f → echo r = true → echo f = false →
      (∀ t, t < r → echo t = false) →
      (∀ t, t < f → r ≤ t → echo t = true) →
      ∀ fuel, f < fuel →
        measure_distance_cm echo fuel = some (((f : ℚ) - (r : ℚ)) / 58)) := by
  refine ⟨?_, ?_, ?_⟩
  · intro hdead fuel
    unfold measure_distance_cm
    rw [wait_for_high_dead echo hdead fuel 0]
  · intro r hbefore hstuck fuel
    unfold measure_distance_cm
    cases hwh : wait_for_high echo 0 fuel with
    | none => rfl
    | some u =>
      have hu : echo u = true := wait_for_high_sound echo fuel 0 u hwh
      have hru : r ≤ u := by
        by_contra hlt
        push_neg at hlt
        rw [hbefore u hlt] at hu
        exact Bool.false_ne_true hu
      simp only [wait_for_low_never echo r hstuck fuel u hru]
  · intro r f hrf hr hf hbefore hhigh fuel hfuel
    unfold measure_distance_cm
    rw [wait_for_high_spec echo r hr hbefore fuel 0 (by omega) (by omega)]
    have hlow := wait_for_low_spec echo r f hf hhigh fuel r (le_refl r)
      (by omega) (by omega)
    simp only [hlow]

/-- Witness for C8: a dead echo line never returns at fuel 100; a line that
rises at sample 2 and never falls never returns at fuel 100 either; a pulse
high on sample times 2..4 reads `(5 - 2) / 58` centimeters. -/
theorem c8_measure_distance_witness :
    measure_distance_cm (fun _ => false) 100 = none ∧
      measure_distance_cm (fun t => decide (2 ≤ t)) 100 = none ∧
      measure_distance_cm (fun t => decide (2 ≤ t ∧ t < 5)) 10 =
        some (((5 : ℚ) - (2 : ℚ)) / 58) :=
  ⟨(c8_measure_distance (fun _ => false)).1 (fun _ => rfl) 100,
   (c8_measure_distance (fun t => decide (2 ≤ t))).2.1 2
     (by decide) (fun t ht => decide_eq_true ht) 100,
   (c8_measure_distance (fun t => decide (2 ≤ t ∧ t < 5))).2.2 2 5
     (by decide) (by decide) (by decide)
     (by decide)
     (by decide)
     10 (by decide)⟩

/-- The ADC scale constant of `temp_read`: `3.3f / (1 << 12)`, floats
modelled as exact rationals. -/
def conversion_factor : ℚ := (33 / 10) / 2 ^ 12

/-- Embedding of `temp_read` on a raw 12-bit ADC sample: the RP2040
datasheet conversion `27.0f - ((raw * conversion_factor) - 0.706f) /
0.001721f`. -/
def temp_read (raw_value : Nat) : ℚ :=
  27 - (((raw_value : ℚ) * conversion_factor) - 706 / 1000) / (1721 / 1000000)

/-- The documented linear formula as the claim words it:
`27.0 - ((raw * 3.3 / 4096) - 0.706) / 0.001721`. -/
def temp_formula (raw : Nat) : ℚ :=
  27 - ((((raw : ℚ) * (33 / 10)) / 4096 - 706 / 1000) / (1721 / 1000000))

/-- Claim C9: for every 12-bit raw sample, `temp_read` agrees with the
documented linear formula within the claimed 0.01 degree tolerance (in the
exact rational model they coincide). -/
theorem c9_temp_conversion (raw : Nat) (_hraw : raw < 4096) :
    |temp_read raw - temp_formula raw| ≤ 1 / 100 := by
  have heq : temp_read raw = temp_formula raw := by
    unfold temp_read temp_formula conversion_factor
    ring_nf
  rw [heq, sub_self, abs_zero]
  norm_num

/-- Witness for C9 at the mid-scale raw sample 2048. -/
theorem c9_temp_conversion_witness :
    2048 < 4096 ∧ |temp_read 2048 - temp_formula 2048| ≤ 1 / 100 :=
  ⟨by decide, c9_temp_conversion 2048 (by decide)⟩
